import Mathlib

/-!
Shallow embedding of the element-wise arithmetic engine in
src/lib/data-arithmetic-other.c of gnuastro: type casting
(data_arithmetic_change_type), logical negation (data_arithmetic_not),
float-domain unary functions (data_arithmetic_unary_function_f),
float-domain binary functions (data_arithmetic_binary_function_f) and the
masked conditional select (data_arithmetic_where).

Buffers are embedded as lists of integer payloads: integer kinds hold their
mathematical value and floating kinds hold an exact payload (none of the
properties settled here depends on floating-point rounding); the libm scalar
functions sqrt, log, log10 and pow are external to this repository, so the
engines are parametric in them (MathEnv).  Buffer identity (needed for the
in-place-reuse and free/consume properties) is tracked with an explicit
natural-number id; freeing is recorded as the list of freed buffer ids, and
each operation that may allocate receives the id of the fresh buffer it
would allocate.
-/

namespace Gnuastro

/-- Scalar kinds of a gal_data_t (the GAL_DATA_TYPE_* constants used in
data-arithmetic-other.c).  The unsigned-char kind doubles as the
boolean/logical result kind of this engine: it is the kind
data_arithmetic_not allocates for its output and the kind
data_arithmetic_where requires of its condition operand.  GAL_DATA_TYPE_BIT
is the packed-bit kind, unsupported by every operation here. -/
inductive Kind where
  | bit | uchar | char | logical | ushort | short | uint | int
  | ulong | long | longlong | float | double
  deriving DecidableEq, Repr

/-- Operator codes (GAL_DATA_OPERATOR_*) dispatched in this file. -/
inductive Operator where
  | to_uchar | to_char | to_ushort | to_short | to_uint | to_int
  | to_ulong | to_long | to_longlong | to_float | to_double
  | sqrt | log | log10 | pow
  deriving DecidableEq, Repr

/-- The three bits of the flags argument used in data-arithmetic-other.c:
GAL_DATA_ARITH_FREE, GAL_DATA_ARITH_INPLACE and GAL_DATA_ARITH_NUMOK. -/
structure Flags where
  free : Bool
  inplace : Bool
  numok : Bool
  deriving DecidableEq, Repr

/-- A gal_data_t: kind tag, dimension sizes (dsize), the element buffer
(array), the identity of the backing buffer, and the opaque wcs and
minmapsize fields that the arithmetic engine merely passes through. -/
structure gal_data_t where
  type : Kind
  dsize : List Nat
  array : List Int
  bufId : Nat
  wcs : Nat
  minmapsize : Nat
  deriving DecidableEq, Repr

/-- The size field of a gal_data_t: the total element count of the buffer. -/
def gal_data_t.size (a : gal_data_t) : Nat :=
  a.array.length

/-- The structural invariant of a gal_data_t: the buffer holds exactly
product(dsize) elements. -/
def gal_data_t.wf (a : gal_data_t) : Prop :=
  a.array.length = a.dsize.prod

/-- Errors of the engine, one constructor per error kind of the spec; each
error site of data-arithmetic-other.c maps onto one of them.  typeMismatch
names the operator, the operand position and the offending kind, exactly as
the message of check_float_input does. -/
inductive ArithError where
  | typeMismatch (op : Operator) (operand : String) (k : Kind)
  | whereCondKind (k : Kind)
  | shapeMismatch (fn : String)
  | unsupportedKind (fn : String) (k : Kind)
  | internalInvariant (fn : String)
  deriving DecidableEq, Repr

/-- Storing an integer payload through a kind: the C conversion applied by
an assignment to an lvalue of that kind (spec section 4.2): unsigned integer
kinds wrap modulo 2^width, signed integer kinds wrap into the symmetric
two's-complement range; the floating kinds keep the payload (exact model).
LOGICAL is stored through char in this engine. -/
def convVal : Kind → Int → Int
  | Kind.uchar, v => v % 256
  | Kind.char, v => (v + 128) % 256 - 128
  | Kind.logical, v => (v + 128) % 256 - 128
  | Kind.ushort, v => v % 65536
  | Kind.short, v => (v + 32768) % 65536 - 32768
  | Kind.uint, v => v % 4294967296
  | Kind.int, v => (v + 2147483648) % 4294967296 - 2147483648
  | Kind.ulong, v => v % 18446744073709551616
  | Kind.long, v => (v + 9223372036854775808) % 18446744073709551616 - 9223372036854775808
  | Kind.longlong, v => (v + 9223372036854775808) % 18446744073709551616 - 9223372036854775808
  | Kind.float, v => v
  | Kind.double, v => v
  | Kind.bit, v => v

/-- Modelled from the spec: gal_data_alloc is not under src/ (only its
callers are).  Spec section 4.1: allocate(kind, shape, coord_metadata,
residency_threshold) yields a value of the requested kind and shape with a
buffer of product(shape) elements (uninitialized in the source, zeroed
here; every caller in this engine overwrites the whole buffer). -/
def gal_data_alloc (t : Kind) (dsize : List Nat) (wcs : Nat)
    (minmapsize : Nat) (freshId : Nat) : gal_data_t :=
  { type := t, dsize := dsize, array := List.replicate dsize.prod 0,
    bufId := freshId, wcs := wcs, minmapsize := minmapsize }

/-- Modelled from the spec: gal_data_copy_to_new_type is not under src/.
Spec section 4.2: the output has the target kind and the input shape, and
each element is converted with the target kind's standard numeric
conversion. -/
def gal_data_copy_to_new_type (a : gal_data_t) (t : Kind) (freshId : Nat) :
    gal_data_t :=
  { type := t, dsize := a.dsize, array := a.array.map (convVal t),
    bufId := freshId, wcs := a.wcs, minmapsize := a.minmapsize }

/-- Modelled from the spec: gal_data_out_type is not under src/.  Spec
section 4.5: for the float-domain binary engine the output kind is the
wider of the two operand kinds, float64 dominating float32 (both operands
have already passed check_float_input when it is consulted). -/
def gal_data_out_type (l r : gal_data_t) : Kind :=
  if l.type = Kind.double ∨ r.type = Kind.double then Kind.double
  else Kind.float

/-- Modelled from the spec: gal_data_dsize_is_different is not under src/.
Spec section 3: shape compatibility is the exact dimension match, so the
function reports whether the two dimension-size sequences differ. -/
def gal_data_dsize_is_different (a b : gal_data_t) : Bool :=
  decide (a.dsize ≠ b.dsize)

/-- The scalar libm functions applied element-wise by the unary and binary
float engines.  They are external C library functions (math.h), not code of
this repository, so the engines take them as parameters. -/
structure MathEnv where
  sqrtF : Int → Int
  logF : Int → Int
  log10F : Int → Int
  powF : Int → Int → Int

/-- A concrete instantiation of the external scalar functions, used only to
evaluate the engine on concrete inputs (the properties proved below never
depend on the scalar functions themselves). -/
def mathEnv0 : MathEnv :=
  { sqrtF := fun v => v, logF := fun v => v, log10F := fun v => v,
    powF := fun a b => a * b }

/-- The output type selected by the switch at the top of
data_arithmetic_change_type (src/lib/data-arithmetic-other.c lines 53-70).
Note the source line 56: the TO_CHAR operator sets GAL_DATA_TYPE_UCHAR. -/
def change_type_target : Operator → Option Kind
  | Operator.to_uchar => some Kind.uchar
  | Operator.to_char => some Kind.uchar
  | Operator.to_ushort => some Kind.ushort
  | Operator.to_short => some Kind.short
  | Operator.to_uint => some Kind.uint
  | Operator.to_int => some Kind.int
  | Operator.to_ulong => some Kind.ulong
  | Operator.to_long => some Kind.long
  | Operator.to_longlong => some Kind.longlong
  | Operator.to_float => some Kind.float
  | Operator.to_double => some Kind.double
  | _ => none

/-- data_arithmetic_change_type (lines 45-81): select the output type from
the operator, copy the input to the new type, free the input when the FREE
flag is set, return the output.  The result carries the list of freed
buffer ids. -/
def data_arithmetic_change_type (data : gal_data_t) (op : Operator)
    (flags : Flags) (freshId : Nat) :
    Except ArithError (gal_data_t × List Nat) :=
  match change_type_target op with
  | none => Except.error (ArithError.internalInvariant "data_arithmetic_change_type")
  | some t =>
      let out := gal_data_copy_to_new_type data t freshId
      Except.ok (out, if flags.free then [data.bufId] else [])

/-- data_arithmetic_not (lines 95-154): allocate an unsigned-char output of
the input shape, set each output element to the logical negation of the
corresponding input element (the TYPE_CASE_FOR_NOT loop, identical for
every listed kind), error on the packed-bit kind, free the input when the
FREE flag is set. -/
def data_arithmetic_not (data : gal_data_t) (flags : Flags) (freshId : Nat) :
    Except ArithError (gal_data_t × List Nat) :=
  match data.type with
  | Kind.bit => Except.error (ArithError.unsupportedKind "data_arithmetic_not" Kind.bit)
  | _ =>
      let out := gal_data_alloc Kind.uchar data.dsize data.wcs data.minmapsize freshId
      let out := { out with array := data.array.map (fun v => if v = 0 then 1 else 0) }
      Except.ok (out, if flags.free then [data.bufId] else [])

/-- check_float_input (lines 179-199): accept only the float and double
kinds; otherwise report the operator, the operand position string and the
offending kind. -/
def check_float_input (a : gal_data_t) (op : Operator) (numstr : String) :
    Except ArithError Unit :=
  match a.type with
  | Kind.float => Except.ok ()
  | Kind.double => Except.ok ()
  | k => Except.error (ArithError.typeMismatch op numstr k)

/-- The scalar function dispatched by the operator switch of
data_arithmetic_unary_function_f (lines 270-278). -/
def unary_apply (env : MathEnv) : Operator → Option (Int → Int)
  | Operator.sqrt => some env.sqrtF
  | Operator.log => some env.logF
  | Operator.log10 => some env.log10F
  | _ => none

/-- data_arithmetic_unary_function_f (lines 252-294): check that the input
is float-kind; with the INPLACE flag reuse the input as the output,
otherwise allocate a new value of the input kind and shape; apply the
scalar function element-wise (UNIFUNC_RUN_FUNCTION); free the input when
the FREE flag is set and the output is not the input. -/
def data_arithmetic_unary_function_f (env : MathEnv) (op : Operator)
    (flags : Flags) (inp : gal_data_t) (freshId : Nat) :
    Except ArithError (gal_data_t × List Nat) :=
  match check_float_input inp op "first" with
  | Except.error e => Except.error e
  | Except.ok _ =>
      let o :=
        if flags.inplace then inp
        else gal_data_alloc inp.type inp.dsize inp.wcs inp.minmapsize freshId
      match unary_apply env op with
      | none => Except.error (ArithError.internalInvariant "data_arithmetic_binary_function")
      | some f =>
          let o := { o with array := inp.array.map f }
          Except.ok (o, if flags.free ∧ ¬ flags.inplace then [inp.bufId] else [])

/-- Which value data_arithmetic_binary_function_f uses as its output: the
left operand, the right operand, or a freshly allocated one (lines
416-435). -/
inductive OutSel where
  | left | right | fresh
  deriving DecidableEq, Repr

/-- The in-place output selection of data_arithmetic_binary_function_f
(lines 418-422 and 431): with the INPLACE flag the left operand is reused
when its type is the final output type and its size is the output size,
else the right operand under the same condition, else (and without the
flag) a fresh output is allocated. -/
def binary_out_sel (flags : Flags) (l r : gal_data_t) (final_otype : Kind)
    (out_size : Nat) : OutSel :=
  if flags.inplace then
    if l.type = final_otype ∧ out_size = l.size then OutSel.left
    else if r.type = final_otype ∧ out_size = r.size then OutSel.right
    else OutSel.fresh
  else OutSel.fresh

/-- The element loop BINFUNC_RUN_FUNCTION (lines 320-327): pairwise when
the sizes are equal, otherwise the single element of the size-1 operand is
paired against every element of the other. -/
def binfunc_run (f : Int → Int → Int) (l r : gal_data_t) : List Int :=
  if l.size = r.size then List.zipWith f l.array r.array
  else if l.size = 1 then r.array.map (fun rv => f (l.array.headD 0) rv)
  else l.array.map (fun lv => f lv (r.array.headD 0))

/-- The output size of data_arithmetic_binary_function_f (line 413): the
larger of the two operand sizes. -/
def binary_out_size (l r : gal_data_t) : Nat :=
  if l.size > r.size then l.size else r.size

/-- The output value used by data_arithmetic_binary_function_f before the
element loop runs: the reused operand when binary_out_sel picks one, else
a fresh allocation (lines 431-435) whose kind is the final output type and
whose dimensions and wcs come from the left operand when its size exceeds
1, else from the right operand; its minmapsize is the smaller of the two
operand minmapsizes (lines 411-412). -/
def binary_out_base (flags : Flags) (l r : gal_data_t) (freshId : Nat) :
    gal_data_t :=
  match binary_out_sel flags l r (gal_data_out_type l r) (binary_out_size l r) with
  | OutSel.left => l
  | OutSel.right => r
  | OutSel.fresh =>
      gal_data_alloc (gal_data_out_type l r)
        (if l.size > 1 then l.dsize else r.dsize)
        (if l.size > 1 then l.wcs else r.wcs)
        (if l.minmapsize < r.minmapsize then l.minmapsize else r.minmapsize)
        freshId

/-- The buffers freed by data_arithmetic_binary_function_f (lines 456-461):
with the FREE flag, every input not reused as the output. -/
def binary_freed (flags : Flags) (l r : gal_data_t) : List Nat :=
  if flags.free then
    match binary_out_sel flags l r (gal_data_out_type l r) (binary_out_size l r) with
    | OutSel.left => [r.bufId]
    | OutSel.right => [l.bufId]
    | OutSel.fresh => [l.bufId, r.bufId]
  else []

/-- data_arithmetic_binary_function_f (lines 388-465): reject operands of
different dimension sizes unless the NUMOK flag is set and one operand has
size 1; check that both operands are float-kind; compute the output kind
(gal_data_out_type), the output size (the larger operand size) and the
minmapsize (the smaller of the two); select the output value (in-place
reuse or a fresh allocation whose shape, wcs and dimension count come from
the left operand when its size exceeds 1, else from the right); dispatch
the operator (only POW is known) and run the element loop; free the inputs
not reused as the output when the FREE flag is set. -/
def data_arithmetic_binary_function_f (env : MathEnv) (op : Operator)
    (flags : Flags) (l r : gal_data_t) (freshId : Nat) :
    Except ArithError (gal_data_t × List Nat) :=
  if ¬ (flags.numok = true ∧ (l.size = 1 ∨ r.size = 1)) ∧
      gal_data_dsize_is_different l r = true then
    Except.error (ArithError.shapeMismatch "data_arithmetic_binary_function")
  else match check_float_input l op "first" with
  | Except.error e => Except.error e
  | Except.ok _ => match check_float_input r op "second" with
    | Except.error e => Except.error e
    | Except.ok _ =>
        match op with
        | Operator.pow =>
            Except.ok
              ({ binary_out_base flags l r freshId with
                   array := binfunc_run env.powF l r },
               binary_freed flags l r)
        | _ => Except.error (ArithError.internalInvariant "data_arithmetic_binary_function")

/-- The element loop DO_WHERE_OPERATION for a size-1 iftrue operand (lines
489-496, first branch): each output element whose condition element is
non-zero is overwritten with the single iftrue value, stored through the
output kind. -/
def whereScalar (k : Kind) (tv : Int) : List Int → List Int → List Int
  | o :: os, c :: cs =>
      (if c = 0 then o else convVal k tv) :: whereScalar k tv os cs
  | os, _ => os

/-- The element loop DO_WHERE_OPERATION for a full-size iftrue operand
(lines 489-496, second branch): each output element whose condition
element is non-zero is overwritten with the corresponding iftrue element,
stored through the output kind. -/
def whereVector (k : Kind) : List Int → List Int → List Int → List Int
  | o :: os, c :: cs, t :: ts =>
      (if c = 0 then o else convVal k t) :: whereVector k os cs ts
  | os, _, _ => os

/-- Whether a kind is dispatched by the out/iftrue switches of
data_arithmetic_where (WHERE_OUT_SET, lines 502-541 and 567-605): every
kind except the packed-bit kind and LOGICAL, which fall into the default
error branch. -/
def whereKindOk (k : Kind) : Bool :=
  match k with
  | Kind.bit => false
  | Kind.logical => false
  | _ => true

/-- data_arithmetic_where (lines 547-613): require the condition to be of
the unsigned-char (boolean) kind, require the output and condition
dimension sizes to be identical, dispatch on the output kind and then the
iftrue kind, run DO_WHERE_OPERATION over the output buffer, and free the
condition and iftrue when the FREE flag is set.  The operator argument is
unused, as in the source.  The result is the updated output value and the
list of freed buffer ids. -/
def data_arithmetic_where (_op : Operator) (flags : Flags)
    (out cond iftrue : gal_data_t) :
    Except ArithError (gal_data_t × List Nat) :=
  if cond.type ≠ Kind.uchar then
    Except.error (ArithError.whereCondKind cond.type)
  else if gal_data_dsize_is_different out cond = true then
    Except.error (ArithError.shapeMismatch "data_arithmetic_where")
  else if whereKindOk out.type = false then
    Except.error (ArithError.unsupportedKind "data_arithmetic_where" out.type)
  else if whereKindOk iftrue.type = false then
    Except.error (ArithError.unsupportedKind "WHERE_OUT_SET" iftrue.type)
  else
    let newArray :=
      if iftrue.size = 1 then
        whereScalar out.type (iftrue.array.headD 0) out.array cond.array
      else
        whereVector out.type out.array cond.array iftrue.array
    let freed := if flags.free then [cond.bufId, iftrue.bufId] else []
    Except.ok ({ out with array := newArray }, freed)

/-! Helper lemmas about the embedded loops and checks. -/

lemma headD_eq_getD (xs : List Int) : xs.headD 0 = xs.getD 0 0 := by
  cases xs <;> rfl

lemma dsize_is_different_true_iff (a b : gal_data_t) :
    gal_data_dsize_is_different a b = true ↔ a.dsize ≠ b.dsize := by
  simp [gal_data_dsize_is_different]

lemma check_float_input_ok (a : gal_data_t) (op : Operator) (s : String)
    (h : a.type = Kind.float ∨ a.type = Kind.double) :
    check_float_input a op s = Except.ok () := by
  unfold check_float_input
  rcases h with h | h <;> rw [h]

lemma check_float_input_not_float (a : gal_data_t) (op : Operator) (s : String)
    (h1 : a.type ≠ Kind.float) (h2 : a.type ≠ Kind.double) :
    check_float_input a op s = Except.error (ArithError.typeMismatch op s a.type) := by
  unfold check_float_input
  cases ha : a.type <;> first | rfl | exact absurd ha h1 | exact absurd ha h2

lemma check_float_input_ne_shape (a : gal_data_t) (op : Operator) (s fn : String) :
    check_float_input a op s ≠ Except.error (ArithError.shapeMismatch fn) := by
  unfold check_float_input
  cases ha : a.type <;> simp

lemma whereScalar_length (k : Kind) (tv : Int) :
    ∀ os cs : List Int, (whereScalar k tv os cs).length = os.length := by
  intro os
  induction os with
  | nil => intro cs; cases cs <;> rfl
  | cons o os ih =>
    intro cs
    cases cs with
    | nil => rfl
    | cons c cs => simp [whereScalar, ih]

lemma whereScalar_getD (k : Kind) (tv : Int) :
    ∀ (os cs : List Int) (i : Nat), i < os.length → i < cs.length →
      (whereScalar k tv os cs).getD i 0 =
        if cs.getD i 0 = 0 then os.getD i 0 else convVal k tv := by
  intro os
  induction os with
  | nil => intro cs i h1 _; simp at h1
  | cons o os ih =>
    intro cs i h1 h2
    cases cs with
    | nil => simp at h2
    | cons c cs =>
      cases i with
      | zero => simp [whereScalar]
      | succ n =>
        simp only [whereScalar, List.getD_cons_succ]
        exact ih cs n (by simpa using h1) (by simpa using h2)

lemma whereScalar_zero_cond (k : Kind) (tv : Int) :
    ∀ os cs : List Int, (∀ c ∈ cs, c = 0) → whereScalar k tv os cs = os := by
  intro os
  induction os with
  | nil => intro cs _; cases cs <;> rfl
  | cons o os ih =>
    intro cs hz
    cases cs with
    | nil => rfl
    | cons c cs =>
      have hc : c = 0 := hz c (by simp)
      simp [whereScalar, hc, ih cs (fun x hx => hz x (by simp [hx]))]

lemma whereVector_length (k : Kind) :
    ∀ os cs ts : List Int, (whereVector k os cs ts).length = os.length := by
  intro os
  induction os with
  | nil => intro cs ts; cases cs <;> cases ts <;> rfl
  | cons o os ih =>
    intro cs ts
    cases cs with
    | nil => cases ts <;> rfl
    | cons c cs =>
      cases ts with
      | nil => rfl
      | cons t ts => simp [whereVector, ih]

lemma whereVector_getD (k : Kind) :
    ∀ (os cs ts : List Int) (i : Nat), i < os.length → i < cs.length →
      i < ts.length →
      (whereVector k os cs ts).getD i 0 =
        if cs.getD i 0 = 0 then os.getD i 0 else convVal k (ts.getD i 0) := by
  intro os
  induction os with
  | nil => intro cs ts i h1 _ _; simp at h1
  | cons o os ih =>
    intro cs ts i h1 h2 h3
    cases cs with
    | nil => simp at h2
    | cons c cs =>
      cases ts with
      | nil => simp at h3
      | cons t ts =>
        cases i with
        | zero => simp [whereVector]
        | succ n =>
          simp only [whereVector, List.getD_cons_succ]
          exact ih cs ts n (by simpa using h1) (by simpa using h2)
            (by simpa using h3)

lemma whereVector_zero_cond (k : Kind) :
    ∀ os cs ts : List Int, (∀ c ∈ cs, c = 0) → whereVector k os cs ts = os := by
  intro os
  induction os with
  | nil => intro cs ts _; cases cs <;> cases ts <;> rfl
  | cons o os ih =>
    intro cs ts hz
    cases cs with
    | nil => cases ts <;> rfl
    | cons c cs =>
      cases ts with
      | nil => rfl
      | cons t ts =>
        have hc : c = 0 := hz c (by simp)
        simp [whereVector, hc, ih cs ts (fun x hx => hz x (by simp [hx]))]

lemma binary_gate_pass (flags : Flags) (l r : gal_data_t)
    (hacc : (flags.numok = true ∧ (l.size = 1 ∨ r.size = 1)) ∨ l.dsize = r.dsize) :
    ¬ (¬ (flags.numok = true ∧ (l.size = 1 ∨ r.size = 1)) ∧
        gal_data_dsize_is_different l r = true) := by
  rcases hacc with h | h
  · exact fun hc => hc.1 h
  · intro hc
    exact (dsize_is_different_true_iff l r).mp hc.2 h

lemma binary_pow_ok (env : MathEnv) (flags : Flags) (l r : gal_data_t) (fid : Nat)
    (hl : l.type = Kind.float ∨ l.type = Kind.double)
    (hr : r.type = Kind.float ∨ r.type = Kind.double)
    (hacc : (flags.numok = true ∧ (l.size = 1 ∨ r.size = 1)) ∨ l.dsize = r.dsize) :
    data_arithmetic_binary_function_f env Operator.pow flags l r fid =
      Except.ok
        ({ binary_out_base flags l r fid with array := binfunc_run env.powF l r },
         binary_freed flags l r) := by
  unfold data_arithmetic_binary_function_f
  rw [if_neg (binary_gate_pass flags l r hacc),
      check_float_input_ok l _ _ hl, check_float_input_ok r _ _ hr]

lemma binary_out_sel_left_iff (flags : Flags) (l r : gal_data_t) (F : Kind)
    (S : Nat) :
    binary_out_sel flags l r F S = OutSel.left ↔
      flags.inplace = true ∧ (l.type = F ∧ S = l.size) := by
  unfold binary_out_sel
  split_ifs with h1 h2 h3 <;> simp_all

lemma binary_out_sel_right_iff (flags : Flags) (l r : gal_data_t) (F : Kind)
    (S : Nat) :
    binary_out_sel flags l r F S = OutSel.right ↔
      flags.inplace = true ∧ ¬ (l.type = F ∧ S = l.size) ∧
        (r.type = F ∧ S = r.size) := by
  unfold binary_out_sel
  split_ifs with h1 h2 h3 <;> simp_all

lemma binary_out_sel_fresh_iff (flags : Flags) (l r : gal_data_t) (F : Kind)
    (S : Nat) :
    binary_out_sel flags l r F S = OutSel.fresh ↔
      ¬ flags.inplace = true ∨
        (¬ (l.type = F ∧ S = l.size) ∧ ¬ (r.type = F ∧ S = r.size)) := by
  unfold binary_out_sel
  split_ifs with h1 h2 h3 <;> simp_all

lemma binary_out_base_eq_sel (flags : Flags) (l r : gal_data_t) (fid : Nat) :
    binary_out_base flags l r fid =
      match binary_out_sel flags l r (gal_data_out_type l r) (binary_out_size l r) with
      | OutSel.left => l
      | OutSel.right => r
      | OutSel.fresh =>
          gal_data_alloc (gal_data_out_type l r)
            (if l.size > 1 then l.dsize else r.dsize)
            (if l.size > 1 then l.wcs else r.wcs)
            (if l.minmapsize < r.minmapsize then l.minmapsize else r.minmapsize)
            fid := rfl

lemma binary_out_base_type (flags : Flags) (l r : gal_data_t) (fid : Nat) :
    (binary_out_base flags l r fid).type = gal_data_out_type l r := by
  rw [binary_out_base_eq_sel]
  cases hsel : binary_out_sel flags l r (gal_data_out_type l r) (binary_out_size l r) with
  | left => exact ((binary_out_sel_left_iff flags l r _ _).mp hsel).2.1
  | right => exact ((binary_out_sel_right_iff flags l r _ _).mp hsel).2.2.1
  | fresh => rfl

lemma binary_out_base_dsize_of_left_big (flags : Flags) (l r : gal_data_t)
    (fid : Nat)
    (hacc : (flags.numok = true ∧ (l.size = 1 ∨ r.size = 1)) ∨ l.dsize = r.dsize)
    (hbig : 1 < l.size) :
    (binary_out_base flags l r fid).dsize = l.dsize := by
  rw [binary_out_base_eq_sel]
  cases hsel : binary_out_sel flags l r (gal_data_out_type l r) (binary_out_size l r) with
  | left => rfl
  | right =>
    -- the right operand is reused, so its size is the output size
    have hrs : binary_out_size l r = r.size :=
      ((binary_out_sel_right_iff flags l r _ _).mp hsel).2.2.2
    have hle : l.size ≤ r.size := by
      by_contra hgt
      push_neg at hgt
      unfold binary_out_size at hrs
      rw [if_pos hgt] at hrs
      omega
    rcases hacc with h | h
    · rcases h.2 with h1s | h1s <;> omega
    · exact h.symm
  | fresh =>
    show (gal_data_alloc _ (if l.size > 1 then l.dsize else r.dsize) _ _ _).dsize = l.dsize
    rw [if_pos hbig]
    rfl

lemma binary_out_base_dsize_of_left_small (flags : Flags) (l r : gal_data_t)
    (fid : Nat) (hsm : l.size ≤ 1) (hip : flags.inplace = false) :
    (binary_out_base flags l r fid).dsize = r.dsize := by
  rw [binary_out_base_eq_sel]
  have hsel : binary_out_sel flags l r (gal_data_out_type l r) (binary_out_size l r) = OutSel.fresh :=
    (binary_out_sel_fresh_iff flags l r _ _).mpr (Or.inl (by simp [hip]))
  rw [hsel]
  show (gal_data_alloc _ (if l.size > 1 then l.dsize else r.dsize) _ _ _).dsize = r.dsize
  rw [if_neg (by omega)]
  rfl

lemma binary_out_base_left (flags : Flags) (l r : gal_data_t) (fid : Nat)
    (hip : flags.inplace = true)
    (h : l.type = gal_data_out_type l r ∧ binary_out_size l r = l.size) :
    binary_out_base flags l r fid = l := by
  rw [binary_out_base_eq_sel,
      (binary_out_sel_left_iff flags l r _ _).mpr ⟨hip, h⟩]

lemma binary_out_base_right (flags : Flags) (l r : gal_data_t) (fid : Nat)
    (hip : flags.inplace = true)
    (hnl : ¬ (l.type = gal_data_out_type l r ∧ binary_out_size l r = l.size))
    (h : r.type = gal_data_out_type l r ∧ binary_out_size l r = r.size) :
    binary_out_base flags l r fid = r := by
  rw [binary_out_base_eq_sel,
      (binary_out_sel_right_iff flags l r _ _).mpr ⟨hip, hnl, h⟩]

lemma binary_out_base_fresh (flags : Flags) (l r : gal_data_t) (fid : Nat)
    (hnl : ¬ (l.type = gal_data_out_type l r ∧ binary_out_size l r = l.size))
    (hnr : ¬ (r.type = gal_data_out_type l r ∧ binary_out_size l r = r.size)) :
    (binary_out_base flags l r fid).bufId = fid := by
  rw [binary_out_base_eq_sel,
      (binary_out_sel_fresh_iff flags l r _ _).mpr (Or.inr ⟨hnl, hnr⟩)]
  rfl

/-! Claim theorems. -/

/-- Claim C1: the claim states that cast returns an Array Value whose kind
equals the requested target kind for every supported target kind.  The code
violates this for the int8 (char) target: the switch of
data_arithmetic_change_type maps the TO_CHAR operator to
GAL_DATA_TYPE_UCHAR (src/lib/data-arithmetic-other.c line 56), unlike every
other operator, which maps to its namesake type.  This theorem evaluates
the engine at the failing input: casting the int32 array [1, 2, 3] with the
TO_CHAR operator yields an output of kind uchar, and uchar is not char. -/
theorem change_type_to_char_yields_uchar :
    data_arithmetic_change_type
      { type := Kind.int, dsize := [3], array := [1, 2, 3], bufId := 0,
        wcs := 0, minmapsize := 0 }
      Operator.to_char { free := false, inplace := false, numok := false } 1
    = Except.ok
        ({ type := Kind.uchar, dsize := [3], array := [1, 2, 3], bufId := 1,
           wcs := 0, minmapsize := 0 }, [])
    ∧ Kind.uchar ≠ Kind.char := by
  exact ⟨rfl, by decide⟩

/-- Claim C5: for every input of any supported kind except the packed-bit
kind, data_arithmetic_not returns a value of the boolean kind (unsigned
char, the kind the engine uses for logical results) with the input shape,
whose element i is 1 exactly when input element i is 0 and 0 otherwise, so
every output element lies in the set containing 0 and 1; for a packed-bit
input it fails with the unsupported-kind error. -/
theorem not_bool_kind_shape_values (data : gal_data_t) (flags : Flags)
    (fid : Nat) :
    (data.type = Kind.bit →
      data_arithmetic_not data flags fid =
        Except.error (ArithError.unsupportedKind "data_arithmetic_not" Kind.bit)) ∧
    (data.type ≠ Kind.bit →
      ∃ out freed, data_arithmetic_not data flags fid = Except.ok (out, freed) ∧
        out.type = Kind.uchar ∧ out.dsize = data.dsize ∧
        out.array = data.array.map (fun v => if v = 0 then 1 else 0) ∧
        ∀ x ∈ out.array, x = 0 ∨ x = 1) := by
  constructor
  · intro hb
    unfold data_arithmetic_not
    rw [hb]
  · intro hb
    unfold data_arithmetic_not
    have hmain : ∃ out freed,
        (match data.type with
          | Kind.bit =>
              Except.error (ArithError.unsupportedKind "data_arithmetic_not" Kind.bit)
          | _ =>
              let out := gal_data_alloc Kind.uchar data.dsize data.wcs data.minmapsize fid
              let out := { out with array := data.array.map (fun v => if v = 0 then 1 else 0) }
              Except.ok (out, if flags.free then [data.bufId] else [])) =
          Except.ok (out, freed) ∧
        out.type = Kind.uchar ∧ out.dsize = data.dsize ∧
        out.array = data.array.map (fun v => if v = 0 then 1 else 0) ∧
        ∀ x ∈ out.array, x = 0 ∨ x = 1 := by
      cases hd : data.type
      case bit => exact absurd hd hb
      all_goals
        refine ⟨_, _, rfl, rfl, rfl, rfl, ?_⟩
      all_goals
        intro x hx
        simp only [List.mem_map] at hx
        obtain ⟨v, _, hv⟩ := hx
        by_cases hv0 : v = 0 <;> simp [hv0] at hv <;> omega
    exact hmain

/-- Claim C7: data_arithmetic_where rejects a condition operand whose kind
is not the boolean (unsigned char) kind, and rejects a condition whose
dimension sizes differ from the output's, before the element loop runs; in
this embedding an error result carries no updated output value, so no
element of any operand is touched on the failing paths. -/
theorem where_precondition_gate (op : Operator) (flags : Flags)
    (out cond iftrue : gal_data_t) :
    (cond.type ≠ Kind.uchar →
      data_arithmetic_where op flags out cond iftrue =
        Except.error (ArithError.whereCondKind cond.type)) ∧
    (cond.type = Kind.uchar → out.dsize ≠ cond.dsize →
      data_arithmetic_where op flags out cond iftrue =
        Except.error (ArithError.shapeMismatch "data_arithmetic_where")) := by
  constructor
  · intro hck
    unfold data_arithmetic_where
    rw [if_pos hck]
  · intro hck hds
    unfold data_arithmetic_where
    rw [if_neg (by simp [hck]), if_pos ((dsize_is_different_true_iff out cond).mpr hds)]

/-- Witness for C7 at a concrete input: a float-kind condition is rejected
with the condition-kind error, and a boolean condition of the wrong shape
is rejected with the shape error. -/
theorem where_precondition_gate_witness :
    data_arithmetic_where Operator.pow
      { free := false, inplace := false, numok := false }
      { type := Kind.int, dsize := [2], array := [1, 1], bufId := 0, wcs := 0, minmapsize := 0 }
      { type := Kind.float, dsize := [2], array := [1, 0], bufId := 1, wcs := 0, minmapsize := 0 }
      { type := Kind.int, dsize := [2], array := [9, 9], bufId := 2, wcs := 0, minmapsize := 0 } =
      Except.error (ArithError.whereCondKind Kind.float) :=
  (where_precondition_gate Operator.pow
    { free := false, inplace := false, numok := false }
    { type := Kind.int, dsize := [2], array := [1, 1], bufId := 0, wcs := 0, minmapsize := 0 }
    { type := Kind.float, dsize := [2], array := [1, 0], bufId := 1, wcs := 0, minmapsize := 0 }
    { type := Kind.int, dsize := [2], array := [9, 9], bufId := 2, wcs := 0, minmapsize := 0 }).1
    (by decide)

/-- Witness for C5 at a concrete input: negating the int32 array
[0, 2, 0, 5] succeeds with a uchar output of the same shape whose elements
are [1, 0, 1, 0]. -/
theorem not_bool_kind_shape_values_witness :
    ∃ out freed,
      data_arithmetic_not
        { type := Kind.int, dsize := [4], array := [0, 2, 0, 5], bufId := 0,
          wcs := 0, minmapsize := 0 }
        { free := false, inplace := false, numok := false } 1 =
        Except.ok (out, freed) ∧
      out.type = Kind.uchar ∧ out.dsize = [4] ∧
      out.array = ([0, 2, 0, 5] : List Int).map (fun v => if v = 0 then 1 else 0) ∧
      ∀ x ∈ out.array, x = 0 ∨ x = 1 :=
  (not_bool_kind_shape_values
    { type := Kind.int, dsize := [4], array := [0, 2, 0, 5], bufId := 0,
      wcs := 0, minmapsize := 0 }
    { free := false, inplace := false, numok := false } 1).2 (by decide)

/-- Claim C10: in data_arithmetic_binary_function_f, operands of unequal
dimension sizes pass the size gate only when the NUMOK flag is set and at
least one operand has size 1; without that combination any dimension-size
difference is rejected with the size error (the gate is the first check of
the function, before the type checks and before any computation), and with
it the function never raises the size error. -/
theorem binary_numok_gate (env : MathEnv) (op : Operator) (flags : Flags)
    (l r : gal_data_t) (fid : Nat) (hd : l.dsize ≠ r.dsize) :
    (flags.numok = false ∨ (l.size ≠ 1 ∧ r.size ≠ 1) →
      data_arithmetic_binary_function_f env op flags l r fid =
        Except.error (ArithError.shapeMismatch "data_arithmetic_binary_function")) ∧
    (flags.numok = true → l.size = 1 ∨ r.size = 1 →
      data_arithmetic_binary_function_f env op flags l r fid ≠
        Except.error (ArithError.shapeMismatch "data_arithmetic_binary_function")) := by
  constructor
  · intro hcase
    unfold data_arithmetic_binary_function_f
    rw [if_pos]
    refine ⟨?_, (dsize_is_different_true_iff l r).mpr hd⟩
    rcases hcase with h | h
    · intro hc
      rw [h] at hc
      exact Bool.false_ne_true hc.1
    · intro hc
      rcases hc.2 with h1 | h1
      · exact h.1 h1
      · exact h.2 h1
  · intro hnum hsz
    unfold data_arithmetic_binary_function_f
    rw [if_neg (fun hc => hc.1 ⟨hnum, hsz⟩)]
    cases hcl : check_float_input l op "first" with
    | error e =>
      have hne := check_float_input_ne_shape l op "first" "data_arithmetic_binary_function"
      rw [hcl] at hne
      simpa using hne
    | ok u =>
      cases hcr : check_float_input r op "second" with
      | error e =>
        have hne := check_float_input_ne_shape r op "second" "data_arithmetic_binary_function"
        rw [hcr] at hne
        simpa using hne
      | ok v => cases op <;> simp

/-- Witness for C10 at concrete inputs: float arrays of shapes [3] and [5]
are rejected with the size error when the NUMOK flag is off, and a float
scalar of shape [1] against shape [5] passes the size gate when NUMOK is
on. -/
theorem binary_numok_gate_witness :
    data_arithmetic_binary_function_f mathEnv0 Operator.pow
      { free := false, inplace := false, numok := false }
      { type := Kind.float, dsize := [3], array := [1, 2, 3], bufId := 0, wcs := 0, minmapsize := 0 }
      { type := Kind.float, dsize := [5], array := [1, 2, 3, 4, 5], bufId := 1, wcs := 0, minmapsize := 0 } 2 =
      Except.error (ArithError.shapeMismatch "data_arithmetic_binary_function") ∧
    data_arithmetic_binary_function_f mathEnv0 Operator.pow
      { free := false, inplace := false, numok := true }
      { type := Kind.float, dsize := [1], array := [2], bufId := 0, wcs := 0, minmapsize := 0 }
      { type := Kind.float, dsize := [5], array := [1, 2, 3, 4, 5], bufId := 1, wcs := 0, minmapsize := 0 } 2 ≠
      Except.error (ArithError.shapeMismatch "data_arithmetic_binary_function") :=
  ⟨(binary_numok_gate mathEnv0 Operator.pow
      { free := false, inplace := false, numok := false }
      { type := Kind.float, dsize := [3], array := [1, 2, 3], bufId := 0, wcs := 0, minmapsize := 0 }
      { type := Kind.float, dsize := [5], array := [1, 2, 3, 4, 5], bufId := 1, wcs := 0, minmapsize := 0 } 2
      (by decide)).1 (Or.inl rfl),
   (binary_numok_gate mathEnv0 Operator.pow
      { free := false, inplace := false, numok := true }
      { type := Kind.float, dsize := [1], array := [2], bufId := 0, wcs := 0, minmapsize := 0 }
      { type := Kind.float, dsize := [5], array := [1, 2, 3, 4, 5], bufId := 1, wcs := 0, minmapsize := 0 } 2
      (by decide)).2 rfl (Or.inl rfl)⟩

lemma binfunc_run_length (f : Int → Int → Int) (l r : gal_data_t)
    (hlp : 0 < l.size) (hrp : 0 < r.size)
    (hcases : l.size = r.size ∨ l.size = 1 ∨ r.size = 1) :
    (binfunc_run f l r).length = binary_out_size l r := by
  have hle : l.size = l.array.length := rfl
  have hre : r.size = r.array.length := rfl
  unfold binfunc_run binary_out_size
  by_cases he : l.size = r.size
  · rw [if_pos he, List.length_zipWith, ← hle, ← hre]
    split_ifs <;> omega
  · rw [if_neg he]
    by_cases h1 : l.size = 1
    · rw [if_pos h1, List.length_map, ← hre]
      split_ifs <;> omega
    · rw [if_neg h1, List.length_map, ← hle]
      rcases hcases with h | h | h
      · exact absurd h he
      · exact absurd h h1
      · split_ifs <;> omega

lemma binfunc_run_getD (f : Int → Int → Int) (l r : gal_data_t) (i : Nat)
    (hcases : l.size = r.size ∨ l.size = 1 ∨ r.size = 1)
    (hi : i < (binfunc_run f l r).length) :
    (binfunc_run f l r).getD i 0 =
      f (l.array.getD (if l.size = 1 then 0 else i) 0)
        (r.array.getD (if r.size = 1 then 0 else i) 0) := by
  have hle : l.size = l.array.length := rfl
  have hre : r.size = r.array.length := rfl
  unfold binfunc_run at hi ⊢
  by_cases he : l.size = r.size
  · rw [if_pos he] at hi ⊢
    rw [List.length_zipWith] at hi
    have hi1 : i < l.array.length := by omega
    have hi2 : i < r.array.length := by omega
    have hz : (List.zipWith f l.array r.array).getD i 0 =
        f (l.array.getD i 0) (r.array.getD i 0) := by
      rw [List.getD_eq_getElem _ _ (by rw [List.length_zipWith]; omega),
          List.getElem_zipWith, List.getD_eq_getElem _ _ hi1,
          List.getD_eq_getElem _ _ hi2]
    rw [hz]
    by_cases h1 : l.size = 1
    · have hr1 : r.size = 1 := by omega
      have hi0 : i = 0 := by omega
      subst hi0
      rw [if_pos h1, if_pos hr1]
    · have hr1 : ¬ r.size = 1 := by omega
      rw [if_neg h1, if_neg hr1]
  · rw [if_neg he] at hi ⊢
    by_cases h1 : l.size = 1
    · rw [if_pos h1] at hi ⊢
      rw [List.length_map] at hi
      have hr1 : ¬ r.size = 1 := by omega
      have hm : (r.array.map (fun rv => f (l.array.headD 0) rv)).getD i 0 =
          f (l.array.headD 0) (r.array.getD i 0) := by
        rw [List.getD_eq_getElem _ _ (by rw [List.length_map]; omega),
            List.getElem_map, List.getD_eq_getElem _ _ hi]
      rw [hm, if_pos h1, if_neg hr1, headD_eq_getD]
    · rw [if_neg h1] at hi ⊢
      rw [List.length_map] at hi
      have hr1 : r.size = 1 := by
        rcases hcases with h | h | h
        · exact absurd h he
        · exact absurd h h1
        · exact h
      have hm : (l.array.map (fun lv => f lv (r.array.headD 0))).getD i 0 =
          f (l.array.getD i 0) (r.array.headD 0) := by
        rw [List.getD_eq_getElem _ _ (by rw [List.length_map]; omega),
            List.getElem_map, List.getD_eq_getElem _ _ hi]
      rw [hm, if_neg h1, if_pos hr1, headD_eq_getD]

lemma binary_out_base_dsize_of_right_big (flags : Flags) (l r : gal_data_t)
    (fid : Nat) (h1 : l.size = 1) (hbr : 1 < r.size) :
    (binary_out_base flags l r fid).dsize = r.dsize := by
  rw [binary_out_base_eq_sel]
  cases hsel : binary_out_sel flags l r (gal_data_out_type l r) (binary_out_size l r) with
  | left =>
    have hls : binary_out_size l r = l.size :=
      ((binary_out_sel_left_iff flags l r _ _).mp hsel).2.2
    unfold binary_out_size at hls
    split_ifs at hls <;> omega
  | right => rfl
  | fresh =>
    show (gal_data_alloc _ (if l.size > 1 then l.dsize else r.dsize) _ _ _).dsize = r.dsize
    rw [if_neg (by omega)]
    rfl

/-- Claim C2 counterexample: with the NUMOK flag and no in-place request,
pow applied to a float scalar of shape [1, 1] (left) and a float scalar of
shape [1] (right) succeeds and produces an output of shape [1] — the right
operand's shape — while the claim says that when both operands have size 1
the output takes the left operand's shape [1, 1]. -/
theorem binary_both_scalar_shape_counterexample :
    data_arithmetic_binary_function_f mathEnv0 Operator.pow
      { free := false, inplace := false, numok := true }
      { type := Kind.float, dsize := [1, 1], array := [5], bufId := 0, wcs := 0, minmapsize := 0 }
      { type := Kind.float, dsize := [1], array := [7], bufId := 1, wcs := 0, minmapsize := 0 } 2 =
      Except.ok
        ({ type := Kind.float, dsize := [1], array := [35], bufId := 2,
           wcs := 0, minmapsize := 0 }, []) ∧
    ([1] : List Nat) ≠ [1, 1] := ⟨rfl, by decide⟩

/-- Claim C2 as amended: the output kind of
data_arithmetic_binary_function_f is the wider of the two float operand
kinds (double dominates float); the output shape is the left operand's
shape when the left operand is non-scalar, and when the left operand has
size 1 and no in-place reuse is requested it is the right operand's shape
(the source allocates with the right operand's dimensions whenever the
left size does not exceed 1, src/lib/data-arithmetic-other.c lines
431-435). -/
theorem binary_kind_and_shape (env : MathEnv) (flags : Flags)
    (l r : gal_data_t) (fid : Nat)
    (hl : l.type = Kind.float ∨ l.type = Kind.double)
    (hr : r.type = Kind.float ∨ r.type = Kind.double)
    (hacc : (flags.numok = true ∧ (l.size = 1 ∨ r.size = 1)) ∨ l.dsize = r.dsize) :
    ∃ o freed,
      data_arithmetic_binary_function_f env Operator.pow flags l r fid =
        Except.ok (o, freed) ∧
      o.type = (if l.type = Kind.double ∨ r.type = Kind.double
                then Kind.double else Kind.float) ∧
      (1 < l.size → o.dsize = l.dsize) ∧
      (l.size ≤ 1 → flags.inplace = false → o.dsize = r.dsize) := by
  refine ⟨_, _, binary_pow_ok env flags l r fid hl hr hacc, ?_, ?_, ?_⟩
  · show (binary_out_base flags l r fid).type = _
    rw [binary_out_base_type]
    rfl
  · intro hbig
    show (binary_out_base flags l r fid).dsize = l.dsize
    exact binary_out_base_dsize_of_left_big flags l r fid hacc hbig
  · intro hsm hip
    show (binary_out_base flags l r fid).dsize = r.dsize
    exact binary_out_base_dsize_of_left_small flags l r fid hsm hip

/-- Witness for the amended C2 at concrete inputs: pow on a double array of
shape [2] and a float array of shape [2] succeeds with a double output that
takes the left (non-scalar) shape. -/
theorem binary_kind_and_shape_witness :
    ∃ o freed,
      data_arithmetic_binary_function_f mathEnv0 Operator.pow
        { free := false, inplace := false, numok := false }
        { type := Kind.double, dsize := [2], array := [1, 2], bufId := 0, wcs := 0, minmapsize := 0 }
        { type := Kind.float, dsize := [2], array := [3, 4], bufId := 1, wcs := 0, minmapsize := 0 } 2 =
        Except.ok (o, freed) ∧
      o.type = Kind.double ∧ o.dsize = [2] := by
  obtain ⟨o, freed, h1, h2, h3, _⟩ :=
    binary_kind_and_shape mathEnv0
      { free := false, inplace := false, numok := false }
      { type := Kind.double, dsize := [2], array := [1, 2], bufId := 0, wcs := 0, minmapsize := 0 }
      { type := Kind.float, dsize := [2], array := [3, 4], bufId := 1, wcs := 0, minmapsize := 0 } 2
      (Or.inr rfl) (Or.inl rfl) (Or.inr rfl)
  exact ⟨o, freed, h1, h2.trans (by decide), h3 (by decide)⟩

/-- Claim C4 counterexample: without the NUMOK flag, pow on a float scalar
of shape [1] (size 1, hence broadcast-compatible with any operand) against
a float array of shape [5] is rejected with the size error, while the
claim says every broadcast-compatible pair is accepted. -/
theorem binary_broadcast_needs_numok_counterexample :
    data_arithmetic_binary_function_f mathEnv0 Operator.pow
      { free := false, inplace := false, numok := false }
      { type := Kind.float, dsize := [1], array := [2], bufId := 0, wcs := 0, minmapsize := 0 }
      { type := Kind.float, dsize := [5], array := [1, 2, 3, 4, 5], bufId := 1, wcs := 0, minmapsize := 0 } 2 =
      Except.error (ArithError.shapeMismatch "data_arithmetic_binary_function") := rfl

/-- Claim C4 as amended: data_arithmetic_binary_function_f accepts its
operands exactly when their dimension sizes are identical or the NUMOK
flag is set with at least one size-1 operand; on rejection it fails with
the size (shape-mismatch) error, and on acceptance the element loop pairs
elements pairwise when the sizes are equal and repeats the single element
of a size-1 operand against every element of the other, the output length
being the larger operand size; a size-1 left operand against a larger
right operand yields the right operand's shape. -/
theorem binary_broadcast_amended (env : MathEnv) (flags : Flags)
    (l r : gal_data_t) (fid : Nat)
    (hl : l.type = Kind.float ∨ l.type = Kind.double)
    (hr : r.type = Kind.float ∨ r.type = Kind.double)
    (hlp : 0 < l.size) (hrp : 0 < r.size)
    (hwl : l.wf) (hwr : r.wf) :
    (¬ ((flags.numok = true ∧ (l.size = 1 ∨ r.size = 1)) ∨ l.dsize = r.dsize) →
      data_arithmetic_binary_function_f env Operator.pow flags l r fid =
        Except.error (ArithError.shapeMismatch "data_arithmetic_binary_function")) ∧
    (((flags.numok = true ∧ (l.size = 1 ∨ r.size = 1)) ∨ l.dsize = r.dsize) →
      ∃ o freed,
        data_arithmetic_binary_function_f env Operator.pow flags l r fid =
          Except.ok (o, freed) ∧
        o.array.length = binary_out_size l r ∧
        (∀ i, i < o.array.length →
          o.array.getD i 0 =
            env.powF (l.array.getD (if l.size = 1 then 0 else i) 0)
                     (r.array.getD (if r.size = 1 then 0 else i) 0)) ∧
        (l.size = 1 → 1 < r.size → o.dsize = r.dsize)) := by
  constructor
  · intro hnacc
    unfold data_arithmetic_binary_function_f
    rw [if_pos ⟨fun hc => hnacc (Or.inl hc),
                (dsize_is_different_true_iff l r).mpr (fun hd => hnacc (Or.inr hd))⟩]
  · intro hacc
    have hcases : l.size = r.size ∨ l.size = 1 ∨ r.size = 1 := by
      rcases hacc with h | h
      · exact Or.inr h.2
      · left
        show l.array.length = r.array.length
        rw [hwl, hwr, h]
    refine ⟨_, _, binary_pow_ok env flags l r fid hl hr hacc, ?_, ?_, ?_⟩
    · show (binfunc_run env.powF l r).length = _
      exact binfunc_run_length env.powF l r hlp hrp hcases
    · intro i hi
      exact binfunc_run_getD env.powF l r i hcases hi
    · intro h1 hbr
      show (binary_out_base flags l r fid).dsize = r.dsize
      exact binary_out_base_dsize_of_right_big flags l r fid h1 hbr

/-- Witness for the amended C4 at concrete inputs: with the NUMOK flag, a
float scalar of shape [1] against a float array of shape [5] is accepted,
and the output has length 5 and shape [5]. -/
theorem binary_broadcast_amended_witness :
    ∃ o freed,
      data_arithmetic_binary_function_f mathEnv0 Operator.pow
        { free := false, inplace := false, numok := true }
        { type := Kind.float, dsize := [1], array := [2], bufId := 0, wcs := 0, minmapsize := 0 }
        { type := Kind.float, dsize := [5], array := [1, 2, 3, 4, 5], bufId := 1, wcs := 0, minmapsize := 0 } 3 =
        Except.ok (o, freed) ∧
      o.array.length = 5 ∧ o.dsize = [5] := by
  obtain ⟨o, freed, h1, h2, h3, h4⟩ :=
    (binary_broadcast_amended mathEnv0
      { free := false, inplace := false, numok := true }
      { type := Kind.float, dsize := [1], array := [2], bufId := 0, wcs := 0, minmapsize := 0 }
      { type := Kind.float, dsize := [5], array := [1, 2, 3, 4, 5], bufId := 1, wcs := 0, minmapsize := 0 } 3
      (Or.inl rfl) (Or.inl rfl) (by decide) (by decide) rfl rfl).2
      (Or.inl ⟨rfl, Or.inl rfl⟩)
  exact ⟨o, freed, h1, h2.trans (by decide), h4 rfl (by decide)⟩

/-- Claim C6: with the INPLACE flag, data_arithmetic_binary_function_f
reuses the left operand as the output exactly when the left operand's kind
equals the computed output kind and its size equals the computed output
size; otherwise the right operand under the same condition; when neither
qualifies the output is the freshly allocated buffer.  The three cases are
exhaustive, so an operand is reused only when it qualifies and the left
operand is preferred. -/
theorem binary_inplace_reuse (env : MathEnv) (flags : Flags)
    (l r : gal_data_t) (fid : Nat)
    (hl : l.type = Kind.float ∨ l.type = Kind.double)
    (hr : r.type = Kind.float ∨ r.type = Kind.double)
    (hacc : (flags.numok = true ∧ (l.size = 1 ∨ r.size = 1)) ∨ l.dsize = r.dsize)
    (hip : flags.inplace = true) :
    ∃ o freed,
      data_arithmetic_binary_function_f env Operator.pow flags l r fid =
        Except.ok (o, freed) ∧
      (l.type = gal_data_out_type l r ∧ binary_out_size l r = l.size →
        o.bufId = l.bufId) ∧
      (¬ (l.type = gal_data_out_type l r ∧ binary_out_size l r = l.size) →
        (r.type = gal_data_out_type l r ∧ binary_out_size l r = r.size) →
        o.bufId = r.bufId) ∧
      (¬ (l.type = gal_data_out_type l r ∧ binary_out_size l r = l.size) →
        ¬ (r.type = gal_data_out_type l r ∧ binary_out_size l r = r.size) →
        o.bufId = fid) := by
  refine ⟨_, _, binary_pow_ok env flags l r fid hl hr hacc, ?_, ?_, ?_⟩
  · intro h
    show (binary_out_base flags l r fid).bufId = l.bufId
    rw [binary_out_base_left flags l r fid hip h]
  · intro hnl h
    show (binary_out_base flags l r fid).bufId = r.bufId
    rw [binary_out_base_right flags l r fid hip hnl h]
  · intro hnl hnr
    show (binary_out_base flags l r fid).bufId = fid
    exact binary_out_base_fresh flags l r fid hnl hnr

/-- Witness for C6 at concrete inputs: both operands are float arrays of
size 2 and the output kind is float, so the left operand qualifies for
reuse and the output carries the left operand's buffer id. -/
theorem binary_inplace_reuse_witness :
    ∃ o freed,
      data_arithmetic_binary_function_f mathEnv0 Operator.pow
        { free := false, inplace := true, numok := false }
        { type := Kind.float, dsize := [2], array := [1, 2], bufId := 7, wcs := 0, minmapsize := 0 }
        { type := Kind.float, dsize := [2], array := [3, 4], bufId := 8, wcs := 0, minmapsize := 0 } 9 =
        Except.ok (o, freed) ∧
      o.bufId = 7 := by
  obtain ⟨o, freed, h1, h2, _, _⟩ :=
    binary_inplace_reuse mathEnv0
      { free := false, inplace := true, numok := false }
      { type := Kind.float, dsize := [2], array := [1, 2], bufId := 7, wcs := 0, minmapsize := 0 }
      { type := Kind.float, dsize := [2], array := [3, 4], bufId := 8, wcs := 0, minmapsize := 0 } 9
      (Or.inl rfl) (Or.inl rfl) (Or.inr rfl) rfl
  exact ⟨o, freed, h1, h2 (by decide)⟩

lemma unary_f_ok (env : MathEnv) (op : Operator) (flags : Flags)
    (inp : gal_data_t) (fid : Nat) (f : Int → Int)
    (hf : inp.type = Kind.float ∨ inp.type = Kind.double)
    (hop : unary_apply env op = some f) :
    data_arithmetic_unary_function_f env op flags inp fid =
      Except.ok
        ({ (if flags.inplace then inp
            else gal_data_alloc inp.type inp.dsize inp.wcs inp.minmapsize fid) with
             array := inp.array.map f },
         if flags.free ∧ ¬ flags.inplace then [inp.bufId] else []) := by
  unfold data_arithmetic_unary_function_f
  rw [check_float_input_ok inp op "first" hf, hop]

/-- Claim C3: when the preconditions of data_arithmetic_where hold
(boolean condition with the output's dimension sizes, kinds dispatched by
the switches, iftrue of the output size or of size 1), each output element
whose condition element is non-zero becomes the corresponding iftrue
element (the single iftrue element when iftrue is scalar), read through the
output's kind as spec section 4.6 prescribes, and each element whose
condition element is zero is left unchanged; an all-zero condition leaves
the output buffer identical to its prior contents. -/
theorem where_semantics (op : Operator) (flags : Flags)
    (out cond iftrue : gal_data_t)
    (hck : cond.type = Kind.uchar)
    (hcs : cond.dsize = out.dsize)
    (hwo : out.wf) (hwc : cond.wf)
    (hsz : iftrue.size = out.size ∨ iftrue.size = 1)
    (hok : whereKindOk out.type = true)
    (hik : whereKindOk iftrue.type = true) :
    ∃ o freed,
      data_arithmetic_where op flags out cond iftrue = Except.ok (o, freed) ∧
      o.array.length = out.array.length ∧
      (∀ i, i < out.array.length →
        o.array.getD i 0 =
          if cond.array.getD i 0 = 0 then out.array.getD i 0
          else convVal out.type
            (if iftrue.size = 1 then iftrue.array.getD 0 0
             else iftrue.array.getD i 0)) ∧
      ((∀ c ∈ cond.array, c = 0) → o.array = out.array) := by
  have hclen : cond.array.length = out.array.length := by
    have h1 : cond.array.length = cond.dsize.prod := hwc
    have h2 : out.array.length = out.dsize.prod := hwo
    rw [h1, h2, hcs]
  have hres : data_arithmetic_where op flags out cond iftrue =
      Except.ok
        ({ out with array :=
            if iftrue.size = 1 then
              whereScalar out.type (iftrue.array.headD 0) out.array cond.array
            else whereVector out.type out.array cond.array iftrue.array },
         if flags.free then [cond.bufId, iftrue.bufId] else []) := by
    unfold data_arithmetic_where
    rw [if_neg (by simp [hck]),
        if_neg (by simp [gal_data_dsize_is_different, hcs]),
        if_neg (by simp [hok]), if_neg (by simp [hik])]
  refine ⟨_, _, hres, ?_, ?_, ?_⟩
  · show (if iftrue.size = 1 then
        whereScalar out.type (iftrue.array.headD 0) out.array cond.array
      else whereVector out.type out.array cond.array iftrue.array).length = _
    by_cases h1 : iftrue.size = 1
    · rw [if_pos h1, whereScalar_length]
    · rw [if_neg h1, whereVector_length]
  · intro i hi
    show (if iftrue.size = 1 then
        whereScalar out.type (iftrue.array.headD 0) out.array cond.array
      else whereVector out.type out.array cond.array iftrue.array).getD i 0 = _
    by_cases h1 : iftrue.size = 1
    · rw [if_pos h1, if_pos h1,
          whereScalar_getD out.type _ out.array cond.array i hi (by omega),
          headD_eq_getD]
    · have hlen : iftrue.array.length = out.array.length := by
        rcases hsz with h | h
        · exact h
        · exact absurd h h1
      rw [if_neg h1, if_neg h1,
          whereVector_getD out.type out.array cond.array iftrue.array i hi
            (by omega) (by omega)]
  · intro hz
    show (if iftrue.size = 1 then
        whereScalar out.type (iftrue.array.headD 0) out.array cond.array
      else whereVector out.type out.array cond.array iftrue.array) = _
    by_cases h1 : iftrue.size = 1
    · rw [if_pos h1, whereScalar_zero_cond out.type _ out.array cond.array hz]
    · rw [if_neg h1, whereVector_zero_cond out.type out.array cond.array iftrue.array hz]

/-- Witness for C3 at the spec's example: where on output [1, 1, 1] with
condition [1, 0, 1] and iftrue [9, 9, 9] (all uchar) succeeds and yields
the elements 9, 1, 9. -/
theorem where_semantics_witness :
    ∃ o freed,
      data_arithmetic_where Operator.pow
        { free := false, inplace := false, numok := false }
        { type := Kind.uchar, dsize := [3], array := [1, 1, 1], bufId := 0, wcs := 0, minmapsize := 0 }
        { type := Kind.uchar, dsize := [3], array := [1, 0, 1], bufId := 1, wcs := 0, minmapsize := 0 }
        { type := Kind.uchar, dsize := [3], array := [9, 9, 9], bufId := 2, wcs := 0, minmapsize := 0 } =
        Except.ok (o, freed) ∧
      o.array.getD 0 0 = 9 ∧ o.array.getD 1 0 = 1 ∧ o.array.getD 2 0 = 9 := by
  obtain ⟨o, freed, h1, _, h3, _⟩ :=
    where_semantics Operator.pow
      { free := false, inplace := false, numok := false }
      { type := Kind.uchar, dsize := [3], array := [1, 1, 1], bufId := 0, wcs := 0, minmapsize := 0 }
      { type := Kind.uchar, dsize := [3], array := [1, 0, 1], bufId := 1, wcs := 0, minmapsize := 0 }
      { type := Kind.uchar, dsize := [3], array := [9, 9, 9], bufId := 2, wcs := 0, minmapsize := 0 }
      rfl rfl rfl rfl (Or.inl rfl) rfl rfl
  exact ⟨o, freed, h1,
    (h3 0 (by decide)).trans (by decide),
    (h3 1 (by decide)).trans (by decide),
    (h3 2 (by decide)).trans (by decide)⟩

/-- Claim C8: data_arithmetic_unary_function_f (sqrt, log, log10) rejects
every input whose kind is not float or double with the type-mismatch error
naming the operator and the offending kind (it never widens the input);
for a float-kind input it succeeds with the input's kind and the input's
dimension sizes. -/
theorem unary_type_gate (env : MathEnv) (op : Operator) (flags : Flags)
    (inp : gal_data_t) (fid : Nat)
    (hop : op = Operator.sqrt ∨ op = Operator.log ∨ op = Operator.log10) :
    (inp.type ≠ Kind.float ∧ inp.type ≠ Kind.double →
      data_arithmetic_unary_function_f env op flags inp fid =
        Except.error (ArithError.typeMismatch op "first" inp.type)) ∧
    (inp.type = Kind.float ∨ inp.type = Kind.double →
      ∃ o freed,
        data_arithmetic_unary_function_f env op flags inp fid =
          Except.ok (o, freed) ∧
        o.type = inp.type ∧ o.dsize = inp.dsize) := by
  constructor
  · intro h
    unfold data_arithmetic_unary_function_f
    rw [check_float_input_not_float inp op "first" h.1 h.2]
  · intro hf
    obtain ⟨f, hfop⟩ : ∃ f, unary_apply env op = some f := by
      rcases hop with h | h | h <;> subst h <;> exact ⟨_, rfl⟩
    rw [unary_f_ok env op flags inp fid f hf hfop]
    refine ⟨_, _, rfl, ?_, ?_⟩ <;>
      by_cases hI : flags.inplace = true <;>
        simp [hI, gal_data_alloc]

/-- Witness for C8 at concrete inputs: sqrt on an int32 array is rejected
with the type-mismatch error naming sqrt and the int kind. -/
theorem unary_type_gate_witness :
    data_arithmetic_unary_function_f mathEnv0 Operator.sqrt
      { free := false, inplace := false, numok := false }
      { type := Kind.int, dsize := [2], array := [1, 4], bufId := 0, wcs := 0, minmapsize := 0 } 1 =
      Except.error (ArithError.typeMismatch Operator.sqrt "first" Kind.int) :=
  (unary_type_gate mathEnv0 Operator.sqrt
    { free := false, inplace := false, numok := false }
    { type := Kind.int, dsize := [2], array := [1, 4], bufId := 0, wcs := 0, minmapsize := 0 } 1
    (Or.inl rfl)).1 (by decide)

/-- Claim C9: with the INPLACE flag, data_arithmetic_unary_function_f
returns a value carrying the input's buffer id (no allocation) whose
elements are the fully computed results, and frees nothing even when the
FREE flag is also set; without INPLACE and with FREE, the returned value
carries the fresh buffer id and holds the fully computed results, and the
input buffer is the one freed — the free happens at the end of the
function, after the output is populated. -/
theorem unary_inplace_identity_and_free (env : MathEnv) (op : Operator)
    (flags : Flags) (inp : gal_data_t) (fid : Nat)
    (hop : op = Operator.sqrt ∨ op = Operator.log ∨ op = Operator.log10)
    (hf : inp.type = Kind.float ∨ inp.type = Kind.double) :
    (flags.inplace = true →
      ∃ f o, unary_apply env op = some f ∧
        data_arithmetic_unary_function_f env op flags inp fid =
          Except.ok (o, []) ∧
        o.bufId = inp.bufId ∧ o.array = inp.array.map f) ∧
    (flags.inplace = false → flags.free = true →
      ∃ f o, unary_apply env op = some f ∧
        data_arithmetic_unary_function_f env op flags inp fid =
          Except.ok (o, [inp.bufId]) ∧
        o.bufId = fid ∧ o.array = inp.array.map f) := by
  obtain ⟨f, hfop⟩ : ∃ f, unary_apply env op = some f := by
    rcases hop with h | h | h <;> subst h <;> exact ⟨_, rfl⟩
  constructor
  · intro hip
    refine ⟨f, { inp with array := inp.array.map f }, hfop, ?_, rfl, rfl⟩
    rw [unary_f_ok env op flags inp fid f hf hfop, hip]
    simp
  · intro hni hfr
    refine ⟨f, { gal_data_alloc inp.type inp.dsize inp.wcs inp.minmapsize fid with
                 array := inp.array.map f }, hfop, ?_, rfl, rfl⟩
    rw [unary_f_ok env op flags inp fid f hf hfop, hni, hfr]
    simp

/-- Witness for C9 at concrete inputs: sqrt in place on a float array with
the FREE flag also set returns the input's buffer id 3, frees nothing, and
carries the mapped elements. -/
theorem unary_inplace_identity_and_free_witness :
    ∃ f o, unary_apply mathEnv0 Operator.sqrt = some f ∧
      data_arithmetic_unary_function_f mathEnv0 Operator.sqrt
        { free := true, inplace := true, numok := false }
        { type := Kind.float, dsize := [2], array := [1, 4], bufId := 3, wcs := 0, minmapsize := 0 } 9 =
        Except.ok (o, []) ∧
      o.bufId = 3 ∧ o.array = ([1, 4] : List Int).map f :=
  (unary_inplace_identity_and_free mathEnv0 Operator.sqrt
    { free := true, inplace := true, numok := false }
    { type := Kind.float, dsize := [2], array := [1, 4], bufId := 3, wcs := 0, minmapsize := 0 } 9
    (Or.inl rfl) (Or.inl rfl)).1 rfl

end Gnuastro
